import Mathlib

/-!
Verification of `klippy/kinematics/limited_corexy.py` (class
`LimitedCoreXYKinematics`): a CoreXY kinematics variant with per-axis
acceleration limits.

Python floats are modelled as exact rationals (`ℚ`) for all the control and
evaluator logic; the two diagnostic formulas of `cmd_SET_KINEMATICS_LIMIT`
involve `sqrt` and `atan2` and are modelled over `ℝ`.

The mutable attributes of the kinematics object (the per-axis limit store)
are modelled as a structure, and the two methods `check_move` and
`cmd_SET_KINEMATICS_LIMIT` as state-passing functions: each returns the
resulting attribute state next to its visible effect, so that mutation (or
its absence) is provable.  A Python exception raised mid-method is modelled
by returning the attribute state as mutated so far together with the error.
-/

/-- The mutable attributes of `LimitedCoreXYKinematics` read and written by
`cmd_SET_KINEMATICS_LIMIT` and read by `check_move`.
`config_max_accel` is captured at construction (`toolhead.get_max_velocity()`),
`max_x_accel`/`max_y_accel`/`scale_per_axis` are set in `__init__`,
`max_z_accel`/`max_z_velocity` come from the base kinematics class. -/
structure LimitedCoreXYKinematics where
  config_max_accel : ℚ
  max_x_accel : ℚ
  max_y_accel : ℚ
  max_z_accel : ℚ
  max_z_velocity : ℚ
  scale_per_axis : Bool
deriving DecidableEq, Repr

/-- The toolhead attributes read by `check_move` (`move.toolhead`). -/
structure Toolhead where
  max_velocity : ℚ
  max_accel : ℚ
deriving DecidableEq, Repr

/-- The move attributes read by `check_move`: the first three components of
`move.axes_d`, `move.move_d`, `move.is_kinematic_move` and `move.toolhead`. -/
structure Move where
  axes_d : ℚ × ℚ × ℚ
  move_d : ℚ
  is_kinematic_move : Bool
  toolhead : Toolhead
deriving DecidableEq, Repr

/-- The arguments of the single `move.limit_speed(max_v, max_a, max_pa)`
call performed by `check_move`. -/
structure LimitSpeedCall where
  max_v : ℚ
  max_a : ℚ
  max_pa : ℚ
deriving DecidableEq, Repr

/-- The externally visible effects of one `check_move` call: whether
`self._check_endstops(move)` ran, and the `limit_speed` call if any. -/
structure CheckMoveEffect where
  endstops_checked : Bool
  limit : Option LimitSpeedCall
deriving DecidableEq, Repr

/-- `ab_linf = max(abs(x+y), abs(x-y))` from `check_move`. -/
def ab_linf (x y : ℚ) : ℚ := max |x + y| |x - y|

/-- The divisor pattern `max(abs(x/mx + y/my), abs(x/mx - y/my))` used twice
in `check_move`: with `(mx, my) = (max_x_accel, max_y_accel)` for `max_a`
and with the swapped pairing `(max_y_accel, max_x_accel)` for `max_pa`. -/
def accel_divisor (x y mx my : ℚ) : ℚ := max |x / mx + y / my| |x / mx - y / my|

/-- `LimitedCoreXYKinematics.check_move(self, move)`.  Returns the attribute
state after the call (the method performs no attribute assignment, which is
what the returned first component witnesses) together with its effects. -/
def check_move (self : LimitedCoreXYKinematics) (move : Move) :
    LimitedCoreXYKinematics × CheckMoveEffect :=
  if move.is_kinematic_move = false then
    (self, { endstops_checked := false, limit := none })
  else
    -- self._check_endstops(move)
    let toolhead := move.toolhead
    let max_v := toolhead.max_velocity
    let max_a := toolhead.max_accel
    let max_pa := max_a
    let move_d := move.move_d
    let x := move.axes_d.1
    let y := move.axes_d.2.1
    let z := move.axes_d.2.2
    let l := ab_linf x y
    let vap :=
      if 0 < l then
        let max_v := max_v * (move_d / l)
        let base := if self.scale_per_axis then
            max_a * (move_d / self.config_max_accel)
          else
            move_d
        let max_pa := base / accel_divisor x y self.max_y_accel self.max_x_accel
        let max_a := base / accel_divisor x y self.max_x_accel self.max_y_accel
        (max_v, max_a, max_pa)
      else
        (max_v, max_a, max_pa)
    let va :=
      if z ≠ 0 then
        let z_ratio := move_d / |z|
        (min vap.1 (self.max_z_velocity * z_ratio),
         min vap.2.1 (self.max_z_accel * z_ratio))
      else
        (vap.1, vap.2.1)
    (self, { endstops_checked := true,
             limit := some { max_v := va.1, max_a := va.2, max_pa := vap.2.2 } })

/-- Error raised by `gcmd.get_float` / `gcmd.get_int` when a supplied
parameter is out of range. -/
inductive GCodeError where
  | rangeError
deriving DecidableEq, Repr

/-- The optional parameters of one `SET_KINEMATICS_LIMIT` invocation. -/
structure GCodeCommand where
  x_accel : Option ℚ
  y_accel : Option ℚ
  z_accel : Option ℚ
  scale : Option ℤ
deriving DecidableEq, Repr

/-- `gcmd.get_float(name, default, above=0., maxval=config_max_accel)`:
an absent parameter yields the default unvalidated; a supplied value `v`
must satisfy `above < v` and `v <= maxval`, else the command errors. -/
def get_float (p : Option ℚ) (dflt above maxval : ℚ) : Except GCodeError ℚ :=
  match p with
  | none => .ok dflt
  | some v => if above < v ∧ v ≤ maxval then .ok v else .error .rangeError

/-- `bool(gcmd.get_int(..., default, minval=0, maxval=1))` for `SCALE`: an absent
parameter yields the (boolean) default; a supplied integer must lie in
`[minval, maxval]`, and is converted by `bool`. -/
def get_int_bool (p : Option ℤ) (dflt : Bool) (minval maxval : ℤ) :
    Except GCodeError Bool :=
  match p with
  | none => .ok dflt
  | some i => if minval ≤ i ∧ i ≤ maxval then .ok (i ≠ 0) else .error .rangeError

/-- `LimitedCoreXYKinematics.cmd_SET_KINEMATICS_LIMIT(self, gcmd)` without
its report text: the four `self.<field> = gcmd.get_*(...)` assignments run
in source order, each validated as it is parsed; a validation failure
raises, leaving the assignments already performed in place.  The result is
the attribute state when the method ends (normally or by exception) and the
error, if one was raised. -/
def cmd_SET_KINEMATICS_LIMIT (self : LimitedCoreXYKinematics)
    (gcmd : GCodeCommand) : LimitedCoreXYKinematics × Option GCodeError :=
  let config_max_accel := self.config_max_accel
  match get_float gcmd.x_accel self.max_x_accel 0 config_max_accel with
  | .error e => (self, some e)
  | .ok vx =>
    let self := { self with max_x_accel := vx }
    match get_float gcmd.y_accel self.max_y_accel 0 config_max_accel with
    | .error e => (self, some e)
    | .ok vy =>
      let self := { self with max_y_accel := vy }
      match get_float gcmd.z_accel self.max_z_accel 0 config_max_accel with
      | .error e => (self, some e)
      | .ok vz =>
        let self := { self with max_z_accel := vz }
        match get_int_bool gcmd.scale self.scale_per_axis 0 1 with
        | .error e => (self, some e)
        | .ok b => ({ self with scale_per_axis := b }, none)

/-- Some parameter supplied to `SET_KINEMATICS_LIMIT` fails its validation:
an acceleration outside `(0, config_max_accel]`, or `SCALE` outside `[0,1]`. -/
def someSuppliedInvalid (self : LimitedCoreXYKinematics) (gcmd : GCodeCommand) :
    Prop :=
  (∃ v, gcmd.x_accel = some v ∧ ¬(0 < v ∧ v ≤ self.config_max_accel)) ∨
  (∃ v, gcmd.y_accel = some v ∧ ¬(0 < v ∧ v ≤ self.config_max_accel)) ∨
  (∃ v, gcmd.z_accel = some v ∧ ¬(0 < v ∧ v ≤ self.config_max_accel)) ∨
  (∃ i, gcmd.scale = some i ∧ ¬((0:ℤ) ≤ i ∧ i ≤ 1))

/-- C10: `check_move` never mutates the kinematics state: the attribute
state after the call is the state before it, for every move and store. -/
theorem check_move_no_mutation (self : LimitedCoreXYKinematics) (move : Move) :
    (check_move self move).1 = self := by
  unfold check_move
  split <;> rfl

/-- C2 counterexample: for a concrete non-kinematic move, `check_move`
returns before `self._check_endstops(move)` runs, refuting the claim that
the endstop check is invoked for every move. -/
theorem check_move_endstops_cex :
    ¬ (((check_move ⟨9000, 9000, 9000, 9000, 5, false⟩
          { axes_d := (0, 0, 0), move_d := 0, is_kinematic_move := false,
            toolhead := { max_velocity := 100, max_accel := 3000 } }).2).endstops_checked
        = true) := by
  decide

/-- C2 amended: the endstop check runs exactly for kinematic moves; a
non-kinematic move returns immediately, with no endstop check and no
`limit_speed` call. -/
theorem check_move_endstops_iff_kinematic (self : LimitedCoreXYKinematics)
    (move : Move) :
    ((check_move self move).2).endstops_checked = move.is_kinematic_move ∧
    (move.is_kinematic_move = false → ((check_move self move).2).limit = none) := by
  cases hm : move.is_kinematic_move <;> simp [check_move, hm]

/-- Witness for the amended C2 at a concrete non-kinematic move. -/
theorem check_move_endstops_iff_kinematic_witness :
    ((check_move ⟨9000, 9000, 9000, 9000, 5, false⟩
        { axes_d := (1, 2, 3), move_d := 4, is_kinematic_move := false,
          toolhead := { max_velocity := 100, max_accel := 3000 } }).2).limit = none :=
  (check_move_endstops_iff_kinematic _ _).2 rfl

/-- C7: for a kinematic move with `x = 0`, `y = 0`, `z != 0`, the XY branch
is skipped and `limit_speed` receives
`max_v = min(max_velocity, max_z_velocity * move_d/|z|)`,
`max_a = min(max_accel, max_z_accel * move_d/|z|)`, and
`max_pa = max_accel` unchanged; for `move_d = |z|` the ratio is 1. -/
theorem check_move_pure_z (self : LimitedCoreXYKinematics) (m : Move)
    (hk : m.is_kinematic_move = true) (hx : m.axes_d.1 = 0)
    (hy : m.axes_d.2.1 = 0) (hz : m.axes_d.2.2 ≠ 0) :
    ((check_move self m).2).limit =
      some { max_v := min m.toolhead.max_velocity
                        (self.max_z_velocity * (m.move_d / |m.axes_d.2.2|)),
             max_a := min m.toolhead.max_accel
                        (self.max_z_accel * (m.move_d / |m.axes_d.2.2|)),
             max_pa := m.toolhead.max_accel } ∧
    (m.move_d = |m.axes_d.2.2| →
      ((check_move self m).2).limit =
        some { max_v := min m.toolhead.max_velocity self.max_z_velocity,
               max_a := min m.toolhead.max_accel self.max_z_accel,
               max_pa := m.toolhead.max_accel }) := by
  have h1 : ((check_move self m).2).limit =
      some { max_v := min m.toolhead.max_velocity
                        (self.max_z_velocity * (m.move_d / |m.axes_d.2.2|)),
             max_a := min m.toolhead.max_accel
                        (self.max_z_accel * (m.move_d / |m.axes_d.2.2|)),
             max_pa := m.toolhead.max_accel } := by
    simp [check_move, hk, hx, hy, hz, ab_linf]
  refine ⟨h1, fun hd => ?_⟩
  rw [h1, hd, div_self (abs_ne_zero.mpr hz), mul_one, mul_one]

/-- Witness for C7 at the pure-Z move `x=0, y=0, z=50, move_d=50`. -/
theorem check_move_pure_z_witness :
    ((check_move ⟨9000, 9000, 4000, 100, 5, false⟩
        { axes_d := (0, 0, 50), move_d := 50, is_kinematic_move := true,
          toolhead := { max_velocity := 200, max_accel := 3000 } }).2).limit =
      some { max_v := min 200 5, max_a := min 3000 100, max_pa := 3000 } :=
  (check_move_pure_z ⟨9000, 9000, 4000, 100, 5, false⟩
      { axes_d := (0, 0, 50), move_d := 50, is_kinematic_move := true,
        toolhead := { max_velocity := 200, max_accel := 3000 } }
      rfl rfl rfl (by norm_num)).2 (by norm_num)

/-- C6: on the XY branch (`ab_linf > 0`) with positive per-axis limits, both
divisors of `check_move` -- the same-pairing one for `max_a` and the
cross-pairing one for `max_pa` -- are strictly positive, so no division by
zero occurs on this branch. -/
theorem accel_divisors_pos (x y mx my : ℚ) (hl : 0 < ab_linf x y)
    (hmx : 0 < mx) (hmy : 0 < my) :
    0 < accel_divisor x y mx my ∧ 0 < accel_divisor x y my mx := by
  have hxy : x ≠ 0 ∨ y ≠ 0 := by
    by_contra h
    push_neg at h
    rw [h.1, h.2] at hl
    simp [ab_linf] at hl
  have key : ∀ a b : ℚ, 0 < a → 0 < b → 0 < accel_divisor x y a b := by
    intro a b ha hb
    by_contra hnot
    push_neg at hnot
    have h1 : x / a + y / b = 0 :=
      abs_nonpos_iff.mp (le_trans (le_max_left _ _) hnot)
    have h2 : x / a - y / b = 0 :=
      abs_nonpos_iff.mp (le_trans (le_max_right _ _) hnot)
    have hx0 : x = 0 := by
      have hda : x / a = 0 := by linarith
      rcases div_eq_zero_iff.mp hda with h | h
      · exact h
      · exact absurd h ha.ne'
    have hy0 : y = 0 := by
      have hdb : y / b = 0 := by linarith
      rcases div_eq_zero_iff.mp hdb with h | h
      · exact h
      · exact absurd h hb.ne'
    rcases hxy with h | h
    · exact h hx0
    · exact h hy0
  exact ⟨key mx my hmx hmy, key my mx hmy hmx⟩

/-- Witness for C6 at `x=1, y=0, mx=my=1`. -/
theorem accel_divisors_pos_witness :
    0 < ab_linf 1 0 ∧ (0:ℚ) < 1 ∧
      (0 < accel_divisor 1 0 1 1 ∧ 0 < accel_divisor 1 0 1 1) :=
  ⟨by norm_num [ab_linf], by norm_num,
    accel_divisors_pos 1 0 1 1 (by norm_num [ab_linf]) (by norm_num) (by norm_num)⟩

/-- C5: for the pure-X kinematic move `x=100, y=0, z=0, move_d=100`, with
`max_x_accel = 9000`, `scale_per_axis = true`, requested `max_accel = 3000`
and `config_max_accel = 9000`, the `max_a` passed to `limit_speed` is 3000,
for every value of the remaining limits. -/
theorem check_move_scaled_pure_x_max_a (my mza mzv mv : ℚ) :
    Option.map LimitSpeedCall.max_a
      (((check_move
          { config_max_accel := 9000, max_x_accel := 9000, max_y_accel := my,
            max_z_accel := mza, max_z_velocity := mzv, scale_per_axis := true }
          { axes_d := (100, 0, 0), move_d := 100, is_kinematic_move := true,
            toolhead := { max_velocity := mv, max_accel := 3000 } }).2).limit)
      = some 3000 := by
  norm_num [check_move, ab_linf, accel_divisor, abs_of_pos]

/-- C9: with `scale_per_axis = false`, on the XY branch the `max_a` and
`max_pa` passed to `limit_speed` do not depend on the currently
requested toolhead `max_accel`: changing only that value leaves both unchanged. -/
theorem max_a_independent_of_requested (self : LimitedCoreXYKinematics)
    (m : Move) (a : ℚ) (hscale : self.scale_per_axis = false)
    (hk : m.is_kinematic_move = true)
    (hl : 0 < ab_linf m.axes_d.1 m.axes_d.2.1) :
    Option.map (fun c => (c.max_a, c.max_pa)) (((check_move self m).2).limit) =
    Option.map (fun c => (c.max_a, c.max_pa))
      (((check_move self
          { m with toolhead := { m.toolhead with max_accel := a } }).2).limit) := by
  simp only [check_move, hscale, hk, hl, if_pos, if_true, Bool.false_eq_true,
    if_false, ite_false]

/-- Witness for C9: a concrete XY move evaluated under requested accelerations
3000 and 7000 yields the same `(max_a, max_pa)`. -/
theorem max_a_independent_of_requested_witness :
    Option.map (fun c => (c.max_a, c.max_pa))
      (((check_move ⟨9000, 9000, 4000, 100, 5, false⟩
          { axes_d := (100, 0, 0), move_d := 100, is_kinematic_move := true,
            toolhead := { max_velocity := 200, max_accel := 3000 } }).2).limit) =
    Option.map (fun c => (c.max_a, c.max_pa))
      (((check_move ⟨9000, 9000, 4000, 100, 5, false⟩
          { axes_d := (100, 0, 0), move_d := 100, is_kinematic_move := true,
            toolhead := { max_velocity := 200, max_accel := 7000 } }).2).limit) :=
  max_a_independent_of_requested ⟨9000, 9000, 4000, 100, 5, false⟩
    { axes_d := (100, 0, 0), move_d := 100, is_kinematic_move := true,
      toolhead := { max_velocity := 200, max_accel := 3000 } }
    7000 rfl rfl (by norm_num [ab_linf])

/-- C8: with `config_max_accel = 9000`, `SET_KINEMATICS_LIMIT X_ACCEL=15000`
fails with `RangeError` and the whole store is unchanged. -/
theorem reject_out_of_range_x (self : LimitedCoreXYKinematics)
    (hcfg : self.config_max_accel = 9000) :
    cmd_SET_KINEMATICS_LIMIT self ⟨some 15000, none, none, none⟩ =
      (self, some .rangeError) := by
  simp only [cmd_SET_KINEMATICS_LIMIT, get_float, hcfg]
  norm_num

/-- Witness for C8 at a concrete store. -/
theorem reject_out_of_range_x_witness :
    cmd_SET_KINEMATICS_LIMIT ⟨9000, 3000, 4000, 100, 5, false⟩
        ⟨some 15000, none, none, none⟩ =
      (⟨9000, 3000, 4000, 100, 5, false⟩, some .rangeError) :=
  reject_out_of_range_x ⟨9000, 3000, 4000, 100, 5, false⟩ rfl

/-- C1 counterexample: `X_ACCEL=5000` (valid) together with `Y_ACCEL=15000`
(invalid, `config_max_accel = 9000`) fails with `RangeError`, yet the store
is mutated: `max_x_accel` has already been set to 5000 when the failure
occurs, so the update is not all-or-nothing. -/
theorem set_limits_not_atomic_cex :
    (cmd_SET_KINEMATICS_LIMIT ⟨9000, 3000, 3000, 3000, 5, false⟩
        ⟨some 5000, some 15000, none, none⟩).2 = some .rangeError ∧
    ¬ ((cmd_SET_KINEMATICS_LIMIT ⟨9000, 3000, 3000, 3000, 5, false⟩
        ⟨some 5000, some 15000, none, none⟩).1 =
       (⟨9000, 3000, 3000, 3000, 5, false⟩ : LimitedCoreXYKinematics)) := by
  norm_num [cmd_SET_KINEMATICS_LIMIT, get_float]

/-- C1 amended: whenever any supplied field fails validation the command
fails with `RangeError`; but the update is applied field-by-field in the
order `X_ACCEL`, `Y_ACCEL`, `Z_ACCEL`, `SCALE` and stops at the first
invalid field, so fields parsed before the failure keep their new values
(observable afterwards) -- a sequential update, not all-or-nothing.  Shown
here: the general failure guarantee, and the mutation left by a valid `X_ACCEL`
followed by an invalid `Y_ACCEL`. -/
theorem set_limits_sequential_update :
    (∀ (self : LimitedCoreXYKinematics) (gcmd : GCodeCommand),
      someSuppliedInvalid self gcmd →
      ((cmd_SET_KINEMATICS_LIMIT self gcmd).2).isSome = true) ∧
    (∀ (self : LimitedCoreXYKinematics) (vx vy : ℚ),
      0 < vx → vx ≤ self.config_max_accel →
      ¬(0 < vy ∧ vy ≤ self.config_max_accel) →
      cmd_SET_KINEMATICS_LIMIT self ⟨some vx, some vy, none, none⟩ =
        ({ self with max_x_accel := vx }, some .rangeError)) := by
  constructor
  · intro self gcmd hinv
    simp only [cmd_SET_KINEMATICS_LIMIT]
    split
    · simp
    · next vx hx =>
      split
      · simp
      · next vy hy =>
        split
        · simp
        · next vz hz =>
          split
          · simp
          · next b hb =>
            exfalso
            rcases hinv with ⟨v, hg, hv⟩ | ⟨v, hg, hv⟩ | ⟨v, hg, hv⟩ | ⟨i, hg, hi⟩
            · rw [hg] at hx; simp [get_float, hv] at hx
            · rw [hg] at hy; simp [get_float, hv] at hy
            · rw [hg] at hz; simp [get_float, hv] at hz
            · rw [hg] at hb; simp [get_int_bool, hi] at hb
  · intro self vx vy h1 h2 h3
    simp only [cmd_SET_KINEMATICS_LIMIT, get_float]
    rw [if_pos ⟨h1, h2⟩, if_neg h3]

/-- Witness for the amended C1: both conjuncts applied at a concrete store
and command (`config_max_accel = 9000`, valid `X_ACCEL=5000`, invalid
`Y_ACCEL=15000`). -/
theorem set_limits_sequential_update_witness :
    ((cmd_SET_KINEMATICS_LIMIT ⟨9000, 3000, 3000, 3000, 5, false⟩
        ⟨some 5000, some 15000, none, none⟩).2).isSome = true ∧
    cmd_SET_KINEMATICS_LIMIT ⟨9000, 3000, 3000, 3000, 5, false⟩
        ⟨some 5000, some 15000, none, none⟩ =
      (⟨9000, 5000, 3000, 3000, 5, false⟩, some .rangeError) :=
  ⟨set_limits_sequential_update.1 ⟨9000, 3000, 3000, 3000, 5, false⟩
      ⟨some 5000, some 15000, none, none⟩
      (Or.inr (Or.inl ⟨15000, rfl, by norm_num⟩)),
    set_limits_sequential_update.2 ⟨9000, 3000, 3000, 3000, 5, false⟩ 5000 15000
      (by norm_num) (by norm_num) (by norm_num)⟩

/-- The Python function `math.atan2(y, x)`. -/
noncomputable def atan2 (y x : ℝ) : ℝ :=
  if 0 < x then Real.arctan (y / x)
  else if x < 0 then
    (if 0 ≤ y then Real.arctan (y / x) + Real.pi else Real.arctan (y / x) - Real.pi)
  else
    (if 0 < y then Real.pi / 2 else if y < 0 then -(Real.pi / 2) else 0)

/-- The first diagnostic value of the `cmd_SET_KINEMATICS_LIMIT` report:
`1/sqrt(self.max_x_accel**(-2) + self.max_y_accel**(-2))`. -/
noncomputable def diag_min_accel (max_x_accel max_y_accel : ℚ) : ℝ :=
  1 / Real.sqrt ((max_x_accel : ℝ) ^ (-2 : ℤ) + (max_y_accel : ℝ) ^ (-2 : ℤ))

/-- The second diagnostic value of the `cmd_SET_KINEMATICS_LIMIT` report:
`180*atan2(self.max_x_accel, self.max_y_accel) / pi`. -/
noncomputable def diag_angle (max_x_accel max_y_accel : ℚ) : ℝ :=
  180 * atan2 (max_x_accel : ℝ) (max_y_accel : ℝ) / Real.pi

/-- Modelled from the spec (for the refinement claim C4): the spec section
4.1 formula `min_accel = 1 / sqrt(1/max_x_accel^2 + 1/max_y_accel^2)`. -/
noncomputable def spec_diag_min_accel (max_x_accel max_y_accel : ℚ) : ℝ :=
  1 / Real.sqrt (1 / (max_x_accel : ℝ) ^ 2 + 1 / (max_y_accel : ℝ) ^ 2)

/-- Modelled from the spec (for the refinement claim C4): the spec section
4.1 formula `angle_degrees = 180 * atan2(max_x_accel, max_y_accel) / pi`. -/
noncomputable def spec_diag_angle (max_x_accel max_y_accel : ℚ) : ℝ :=
  180 * atan2 (max_x_accel : ℝ) (max_y_accel : ℝ) / Real.pi

/-- C4: for every store with positive `max_x_accel` and `max_y_accel`, the
diagnostic formulas of the code agree exactly with the formulas of the spec. -/
theorem diag_report_matches_spec (s : LimitedCoreXYKinematics)
    (_hx : 0 < s.max_x_accel) (_hy : 0 < s.max_y_accel) :
    diag_min_accel s.max_x_accel s.max_y_accel
        = spec_diag_min_accel s.max_x_accel s.max_y_accel ∧
    diag_angle s.max_x_accel s.max_y_accel
        = spec_diag_angle s.max_x_accel s.max_y_accel := by
  refine ⟨?_, rfl⟩
  unfold diag_min_accel spec_diag_min_accel
  norm_num [zpow_neg, one_div]
  rfl

/-- Witness for C4 at the store `(max_x_accel, max_y_accel) = (9000, 4000)`. -/
theorem diag_report_matches_spec_witness :
    diag_min_accel 9000 4000 = spec_diag_min_accel 9000 4000 ∧
    diag_angle 9000 4000 = spec_diag_angle 9000 4000 :=
  diag_report_matches_spec ⟨9000, 9000, 4000, 100, 5, false⟩
    (by norm_num) (by norm_num)

/-- The argument of the square root in `diag_min_accel 9000 4000`. -/
theorem diag_arg_9000_4000 :
    ((9000:ℚ):ℝ) ^ (-2 : ℤ) + ((4000:ℚ):ℝ) ^ (-2 : ℤ) = 97 / 1296000000 := by
  norm_num [zpow_neg]

/-- Two-sided bounds for `diag_min_accel 9000 4000`
(true value `36000000/sqrt(97000000) = 3655.2461...`). -/
theorem diag_min_accel_9000_4000_bounds :
    3655.24 ≤ diag_min_accel 9000 4000 ∧ diag_min_accel 9000 4000 ≤ 3655.26 := by
  unfold diag_min_accel
  rw [diag_arg_9000_4000]
  have hs_pos : 0 < Real.sqrt (97 / 1296000000) :=
    Real.sqrt_pos.mpr (by norm_num)
  have hup : Real.sqrt (97 / 1296000000) ≤ 1 / 3655.24 := by
    have h := Real.sqrt_le_sqrt
      (show (97:ℝ) / 1296000000 ≤ (1 / 3655.24) ^ 2 by norm_num)
    rwa [Real.sqrt_sq (by norm_num)] at h
  have hlo : 1 / 3655.26 ≤ Real.sqrt (97 / 1296000000) := by
    have h := Real.sqrt_le_sqrt
      (show ((1:ℝ) / 3655.26) ^ 2 ≤ 97 / 1296000000 by norm_num)
    rwa [Real.sqrt_sq (by norm_num)] at h
  constructor
  · have h := one_div_le_one_div_of_le hs_pos hup
    rwa [one_div_one_div] at h
  · have h := one_div_le_one_div_of_le (by norm_num) hlo
    rwa [one_div_one_div] at h

/-- Monotonicity of the tangent double-angle expression on `[0, 1)`. -/
theorem two_mul_div_one_sub_sq_le {a t : ℝ} (ha : 0 ≤ a) (hat : a ≤ t)
    (ht : t < 1) : 2 * a / (1 - a ^ 2) ≤ 2 * t / (1 - t ^ 2) := by
  have h1 : 0 < 1 - t ^ 2 := by nlinarith
  have h2 : 0 < 1 - a ^ 2 := by nlinarith
  rw [div_le_div_iff₀ h2 h1]
  nlinarith [mul_nonneg (sub_nonneg.mpr hat) (mul_nonneg ha (ha.trans hat))]

/-- `arctan (4/9) < 0.4183553`, via Taylor bounds for sin and cos at the
quarter angle `0.104588825` and two applications of the tangent
double-angle formula. -/
theorem arctan_four_ninths_lt : Real.arctan (4 / 9) < 0.4183553 := by
  have hq : |(0.104588825:ℝ)| ≤ 1 := by
    rw [abs_of_nonneg (by norm_num)]; norm_num
  have herr : |(0.104588825:ℝ)| ^ 4 * (5 / 96) ≤ 0.000007 := by
    rw [abs_of_nonneg (by norm_num)]; norm_num
  have hsin := abs_le.mp (Real.sin_bound hq)
  have hcos := abs_le.mp (Real.cos_bound hq)
  have hs_lo : (0.1043911:ℝ) ≤ Real.sin 0.104588825 := by
    have h1 := hsin.1; linarith
  have hs_hi : Real.sin 0.104588825 ≤ 0.1044052 := by
    have h1 := hsin.2; linarith
  have hc_lo : (0.9945235:ℝ) ≤ Real.cos 0.104588825 := by
    have h1 := hcos.1; linarith
  have hc_hi : Real.cos 0.104588825 ≤ 0.9945376 := by
    have h1 := hcos.2; linarith
  have hcos_pos : (0:ℝ) < Real.cos 0.104588825 := by linarith
  have htan : Real.tan 0.104588825 =
      Real.sin 0.104588825 / Real.cos 0.104588825 := Real.tan_eq_sin_div_cos _
  have ht1_lo : (0.104964:ℝ) ≤ Real.tan 0.104588825 := by
    rw [htan, le_div_iff₀ hcos_pos]; nlinarith
  have ht1_hi : Real.tan 0.104588825 ≤ 0.104981 := by
    rw [htan, div_le_iff₀ hcos_pos]; nlinarith
  have h2 : Real.tan 0.20917765 =
      2 * Real.tan 0.104588825 / (1 - Real.tan 0.104588825 ^ 2) := by
    rw [show (0.20917765:ℝ) = 2 * 0.104588825 by norm_num]
    exact Real.tan_two_mul
  have ht2_lo : (0.212266:ℝ) ≤ Real.tan 0.20917765 := by
    rw [h2]
    refine le_trans (by norm_num)
      (two_mul_div_one_sub_sq_le (by norm_num) ht1_lo (by linarith))
  have ht2_hi : Real.tan 0.20917765 ≤ 0.212302 := by
    rw [h2]
    refine le_trans
      (two_mul_div_one_sub_sq_le (by linarith) ht1_hi (by norm_num))
      (by norm_num)
  have h4 : Real.tan 0.4183553 =
      2 * Real.tan 0.20917765 / (1 - Real.tan 0.20917765 ^ 2) := by
    rw [show (0.4183553:ℝ) = 2 * 0.20917765 by norm_num]
    exact Real.tan_two_mul
  have htb : (4:ℝ) / 9 < Real.tan 0.4183553 := by
    rw [h4]
    have hpos : (0:ℝ) < 1 - Real.tan 0.20917765 ^ 2 := by nlinarith
    rw [lt_div_iff₀ hpos]
    nlinarith [sq_nonneg (Real.tan 0.20917765 - 0.212266)]
  have harc := Real.arctan_strictMono htb
  rwa [Real.arctan_tan (by linarith [Real.pi_pos])
    (by linarith [Real.pi_gt_d6])] at harc

/-- `0.4180065 < arctan (4/9)`, by the same method. -/
theorem lt_arctan_four_ninths : (0.4180065:ℝ) < Real.arctan (4 / 9) := by
  have hq : |(0.104501625:ℝ)| ≤ 1 := by
    rw [abs_of_nonneg (by norm_num)]; norm_num
  have herr : |(0.104501625:ℝ)| ^ 4 * (5 / 96) ≤ 0.000007 := by
    rw [abs_of_nonneg (by norm_num)]; norm_num
  have hsin := abs_le.mp (Real.sin_bound hq)
  have hcos := abs_le.mp (Real.cos_bound hq)
  have hs_lo : (0.104304:ℝ) ≤ Real.sin 0.104501625 := by
    have h1 := hsin.1; linarith
  have hs_hi : Real.sin 0.104501625 ≤ 0.1043185 := by
    have h1 := hsin.2; linarith
  have hc_lo : (0.9945327:ℝ) ≤ Real.cos 0.104501625 := by
    have h1 := hcos.1; linarith
  have hcos_pos : (0:ℝ) < Real.cos 0.104501625 := by linarith
  have htan : Real.tan 0.104501625 =
      Real.sin 0.104501625 / Real.cos 0.104501625 := Real.tan_eq_sin_div_cos _
  have ht1_nonneg : (0:ℝ) ≤ Real.tan 0.104501625 := by
    rw [htan]
    exact div_nonneg (by linarith) (by linarith)
  have ht1_hi : Real.tan 0.104501625 ≤ 0.1048922 := by
    rw [htan, div_le_iff₀ hcos_pos]; nlinarith
  have h2 : Real.tan 0.20900325 =
      2 * Real.tan 0.104501625 / (1 - Real.tan 0.104501625 ^ 2) := by
    rw [show (0.20900325:ℝ) = 2 * 0.104501625 by norm_num]
    exact Real.tan_two_mul
  have ht2_nonneg : (0:ℝ) ≤ Real.tan 0.20900325 := by
    rw [h2]
    refine le_trans (by norm_num)
      (two_mul_div_one_sub_sq_le le_rfl ht1_nonneg (by linarith))
  have ht2_hi : Real.tan 0.20900325 ≤ 0.212119 := by
    rw [h2]
    refine le_trans
      (two_mul_div_one_sub_sq_le ht1_nonneg ht1_hi (by norm_num))
      (by norm_num)
  have h4 : Real.tan 0.4180065 =
      2 * Real.tan 0.20900325 / (1 - Real.tan 0.20900325 ^ 2) := by
    rw [show (0.4180065:ℝ) = 2 * 0.20900325 by norm_num]
    exact Real.tan_two_mul
  have htb : Real.tan 0.4180065 < (4:ℝ) / 9 := by
    rw [h4]
    have hpos : (0:ℝ) < 1 - Real.tan 0.20900325 ^ 2 := by nlinarith
    rw [div_lt_iff₀ hpos]
    nlinarith [sq_nonneg (Real.tan 0.20900325 - 0.212119)]
  have harc := Real.arctan_strictMono htb
  rwa [Real.arctan_tan (by linarith [Real.pi_pos])
    (by linarith [Real.pi_gt_d6])] at harc

/-- The value of `atan2(y, x)` for positive `x` is `arctan (y/x)`. -/
theorem atan2_of_pos (y x : ℝ) (hx : 0 < x) : atan2 y x = Real.arctan (y / x) := by
  unfold atan2
  rw [if_pos hx]

/-- The angle diagnostic at `(9000, 4000)` in terms of `arctan (4/9)`. -/
theorem diag_angle_9000_4000_eq :
    diag_angle 9000 4000 = 180 * (Real.pi / 2 - Real.arctan (4 / 9)) / Real.pi := by
  unfold diag_angle
  rw [atan2_of_pos _ _ (by norm_num)]
  rw [show ((9000:ℚ):ℝ) / ((4000:ℚ):ℝ) = ((4:ℝ) / 9)⁻¹ by norm_num]
  rw [Real.arctan_inv_of_pos (by norm_num)]

/-- Two-sided bounds for `diag_angle 9000 4000`
(true value `66.0375...` degrees). -/
theorem diag_angle_9000_4000_bounds :
    66.03 ≤ diag_angle 9000 4000 ∧ diag_angle 9000 4000 ≤ 66.05 := by
  rw [diag_angle_9000_4000_eq]
  have hA_lt := arctan_four_ninths_lt
  have hA_gt := lt_arctan_four_ninths
  have hpi_lo := Real.pi_gt_d6
  have hpi_hi := Real.pi_lt_d6
  constructor
  · rw [le_div_iff₀ Real.pi_pos]
    nlinarith
  · rw [div_le_iff₀ Real.pi_pos]
    nlinarith

/-- C3 counterexample: the claimed `min_accel ≈ 3657.9` is wrong: the
formula `1/sqrt(9000**(-2) + 4000**(-2))` of the code evaluates to
`3655.246...`, more than `1e-2` away from `3657.9` (the angle conjunct
alone is not at issue). -/
theorem diag_diagnostic_9000_4000_cex :
    ¬ (|diag_min_accel 9000 4000 - 3657.9| ≤ 1 / 100 ∧
       |diag_angle 9000 4000 - 66.04| ≤ 1 / 100) := by
  rintro ⟨h1, -⟩
  have h2 := diag_min_accel_9000_4000_bounds.2
  have h3 := (abs_le.mp h1).1
  linarith

/-- C3 amended: at `max_x_accel = 9000`, `max_y_accel = 4000` the diagnostic
computes `min_accel ≈ 3655.25` (not 3657.9) and `angle ≈ 66.04` degrees,
each within `1e-2` of the formulas the code computes. -/
theorem diag_diagnostic_9000_4000 :
    |diag_min_accel 9000 4000 - 3655.25| ≤ 1 / 100 ∧
    |diag_angle 9000 4000 - 66.04| ≤ 1 / 100 := by
  constructor
  · rw [abs_le]
    constructor
    · linarith [diag_min_accel_9000_4000_bounds.1]
    · linarith [diag_min_accel_9000_4000_bounds.2]
  · rw [abs_le]
    constructor
    · linarith [diag_angle_9000_4000_bounds.1]
    · linarith [diag_angle_9000_4000_bounds.2]
